import Mathlib

/-!
# Verification of the url-shortner-frontend Redux state layer

Shallow embedding of the two Redux slices (`authSlice.js`, `urlSlice.js`),
the request built by the `shortenUrl` thunk, and the protected-route loader
(`createProtectedLoader` in `App.jsx`).  Each reducer case of the source is
translated into a pure Lean transition on an explicit state record; a
dispatch is the pending transition followed by exactly one terminal
(fulfilled or rejected) transition.
-/

/-- The identity value object returned by the gateway on successful
login / verify (`response.data`). -/
structure Identity where
  fullName : String
  emailId : String
  id : Nat
deriving DecidableEq, Repr

/-- State of the auth slice: `initialState` in `authSlice.js` has fields
`user, isAuthenticated, isLoading, error, successMessage`. -/
structure AuthState where
  user : Option Identity
  isAuthenticated : Bool
  isLoading : Bool
  error : Option String
  successMessage : Option String
deriving DecidableEq, Repr

/-- `initialState` of `authSlice.js`. -/
def initialAuthState : AuthState :=
  { user := none
    isAuthenticated := false
    isLoading := false
    error := none
    successMessage := none }

/-- The four async thunks of `authSlice.js`. -/
inductive AuthOp where
  | login
  | signup
  | verifyAuth
  | logout
deriving DecidableEq, Repr

/-- The `pending` extraReducer cases of `authSlice.js`.
`login.pending` and `signup.pending` set `isLoading = true` and
`error = null`; `verifyAuth.pending` only sets `isLoading = true`;
no `logout.pending` case is registered, so the reducer leaves the
state unchanged for that action. -/
def authPending : AuthOp → AuthState → AuthState
  | .login, s => { s with isLoading := true, error := none }
  | .signup, s => { s with isLoading := true, error := none }
  | .verifyAuth, s => { s with isLoading := true }
  | .logout, s => s

/-- The `fulfilled` extraReducer cases of `authSlice.js`.  `login` and
`verifyAuth` store the payload as `user` and set `isAuthenticated`;
`signup` only records the success message; `logout.fulfilled` clears the
session (and does not touch `isLoading`). -/
def authFulfilled : AuthOp → Identity → AuthState → AuthState
  | .login, payload, s =>
      { s with isLoading := false, isAuthenticated := true, user := some payload }
  | .signup, _, s =>
      { s with isLoading := false
               successMessage := some "Registration successful! Please log in." }
  | .verifyAuth, payload, s =>
      { s with isLoading := false, isAuthenticated := true, user := some payload }
  | .logout, _, s =>
      { s with isAuthenticated := false, user := none, error := none }

/-- The `rejected` extraReducer cases of `authSlice.js`.  `login` and
`signup` record the message; `verifyAuth.rejected` clears the session and
ignores the message (it never writes `error`); `logout.rejected` records
the message only (it does not touch `isLoading`). -/
def authRejected : AuthOp → String → AuthState → AuthState
  | .login, msg, s => { s with isLoading := false, error := some msg }
  | .signup, msg, s => { s with isLoading := false, error := some msg }
  | .verifyAuth, _, s =>
      { s with isLoading := false, isAuthenticated := false, user := none }
  | .logout, msg, s => { s with error := some msg }

/-- `clearError` reducer of `authSlice.js`. -/
def authClearError (s : AuthState) : AuthState := { s with error := none }

/-- `clearSuccessMessage` reducer of `authSlice.js`. -/
def authClearSuccessMessage (s : AuthState) : AuthState :=
  { s with successMessage := none }

/-- `setSuccessMessage` reducer of `authSlice.js`. -/
def authSetSuccessMessage (m : String) (s : AuthState) : AuthState :=
  { s with successMessage := some m }

/-- One event observed by the auth store: a phase of one thunk's lifecycle. -/
inductive AuthEvent where
  | pending (op : AuthOp)
  | fulfilled (op : AuthOp) (payload : Identity)
  | rejected (op : AuthOp) (msg : String)
deriving DecidableEq, Repr

/-- The auth reducer applied to one lifecycle action. -/
def authStep : AuthEvent → AuthState → AuthState
  | .pending op, s => authPending op s
  | .fulfilled op p, s => authFulfilled op p s
  | .rejected op m, s => authRejected op m s

/-- Auth states reachable from `initialState` by thunk lifecycle actions. -/
inductive AuthReachable : AuthState → Prop where
  | init : AuthReachable initialAuthState
  | step (e : AuthEvent) (s : AuthState) :
      AuthReachable s → AuthReachable (authStep e s)

/-- A URL record as produced by the gateway (`urls` items rendered by
`Home.jsx`: `id`, `longUrl`, `shortUrl`). -/
structure UrlRecord where
  id : String
  longUrl : String
  shortUrl : String
deriving DecidableEq, Repr

/-- State of the url slice: `initialState` in `urlSlice.js` has fields
`urls, isLoading, error, successMessage`. -/
structure UrlState where
  urls : List UrlRecord
  isLoading : Bool
  error : Option String
  successMessage : Option String
deriving DecidableEq, Repr

/-- `initialState` of `urlSlice.js`. -/
def initialUrlState : UrlState :=
  { urls := [], isLoading := false, error := none, successMessage := none }

/-- The three async thunks of `urlSlice.js`. -/
inductive UrlOp where
  | fetchUserUrls
  | shortenUrl
  | deleteUrl
deriving DecidableEq, Repr

/-- The `pending` extraReducer cases of `urlSlice.js`: all three set
`isLoading = true` and `error = null`. -/
def urlPending : UrlOp → UrlState → UrlState
  | .fetchUserUrls, s => { s with isLoading := true, error := none }
  | .shortenUrl, s => { s with isLoading := true, error := none }
  | .deleteUrl, s => { s with isLoading := true, error := none }

/-- `fetchUserUrls.fulfilled`: `state.urls = action.payload`. -/
def fetchUserUrlsFulfilled (payload : List UrlRecord) (s : UrlState) : UrlState :=
  { s with isLoading := false, urls := payload }

/-- `shortenUrl.fulfilled`: `state.urls.unshift(action.payload)` and the
success message is set. -/
def shortenUrlFulfilled (payload : UrlRecord) (s : UrlState) : UrlState :=
  { s with isLoading := false
           urls := payload :: s.urls
           successMessage := some "URL shortened successfully!" }

/-- `deleteUrl.fulfilled`: `state.urls = state.urls.filter(url => url.id
!== action.payload)` and the success message is set. -/
def deleteUrlFulfilled (payload : String) (s : UrlState) : UrlState :=
  { s with isLoading := false
           urls := s.urls.filter (fun u => u.id ≠ payload)
           successMessage := some "URL deleted successfully!" }

/-- The `rejected` extraReducer cases of `urlSlice.js`: all three set
`isLoading = false` and record the message. -/
def urlRejected : UrlOp → String → UrlState → UrlState
  | .fetchUserUrls, msg, s => { s with isLoading := false, error := some msg }
  | .shortenUrl, msg, s => { s with isLoading := false, error := some msg }
  | .deleteUrl, msg, s => { s with isLoading := false, error := some msg }

/-- `clearError` reducer of `urlSlice.js`. -/
def urlClearError (s : UrlState) : UrlState := { s with error := none }

/-- `clearSuccessMessage` reducer of `urlSlice.js`. -/
def urlClearSuccessMessage (s : UrlState) : UrlState :=
  { s with successMessage := none }

/-- `setSuccessMessage` reducer of `urlSlice.js`. -/
def urlSetSuccessMessage (m : String) (s : UrlState) : UrlState :=
  { s with successMessage := some m }

/-- One event observed by the url store: a phase of one thunk's
lifecycle, with that thunk's payload type. -/
inductive UrlEvent where
  | pending (op : UrlOp)
  | fetchFulfilled (payload : List UrlRecord)
  | shortenFulfilled (payload : UrlRecord)
  | deleteFulfilled (payload : String)
  | rejected (op : UrlOp) (msg : String)
deriving DecidableEq, Repr

/-- The url reducer applied to one lifecycle action. -/
def urlStep : UrlEvent → UrlState → UrlState
  | .pending op, s => urlPending op s
  | .fetchFulfilled p, s => fetchUserUrlsFulfilled p s
  | .shortenFulfilled p, s => shortenUrlFulfilled p s
  | .deleteFulfilled p, s => deleteUrlFulfilled p s
  | .rejected op m, s => urlRejected op m s

/-- Url states reachable from `initialState` by thunk lifecycle actions. -/
inductive UrlReachable : UrlState → Prop where
  | init : UrlReachable initialUrlState
  | step (e : UrlEvent) (s : UrlState) :
      UrlReachable s → UrlReachable (urlStep e s)

/-- Gateway payloads under which the duplicate-id invariant can be
maintained: a fetched list has pairwise distinct ids and a created
record's id is not already present; other events are unrestricted. -/
def freshEvent (s : UrlState) : UrlEvent → Prop
  | .fetchFulfilled p => (p.map (fun u => u.id)).Nodup
  | .shortenFulfilled r => r.id ∉ s.urls.map (fun u => u.id)
  | _ => True

/-- Url states reachable when every gateway payload satisfies
`freshEvent`. -/
inductive UrlReachableFresh : UrlState → Prop where
  | init : UrlReachableFresh initialUrlState
  | step (e : UrlEvent) (s : UrlState) :
      UrlReachableFresh s → freshEvent s e → UrlReachableFresh (urlStep e s)

/-- The HTTP request assembled by the `shortenUrl` thunk in `urlSlice.js`:
a POST to `/urls/create` whose body holds a hard-coded `base_url` and
`expires_at`; the `longUrl` argument is never placed in the request. -/
structure CreateUrlRequest where
  path : String
  base_url : String
  expires_at : String
deriving DecidableEq, Repr

/-- Request built by the `shortenUrl` thunk for input `longUrl`
(`axiosInstance.post("/urls/create", { base_url: ..., expires_at: ... })`). -/
def shortenUrlRequest (longUrl : String) : CreateUrlRequest :=
  { path := "/urls/create"
    base_url := "http://www.activity-time.com"
    expires_at := "2024-12-31T23:59:59.000Z" }

/-- Outcome of dispatching `verifyAuth` as observed by the route loader:
the awaited action is either fulfilled with the identity payload or
rejected (via `rejectWithValue`, so the dispatch itself never throws). -/
inductive VerifyResult where
  | fulfilled (payload : Identity)
  | rejected (msg : String)
deriving DecidableEq, Repr

/-- What the protected-route loader returns to the router. -/
inductive LoaderResult where
  | page (payload : Identity)
  | redirectTo (path : String)
deriving DecidableEq, Repr

/-- `createProtectedLoader` in `App.jsx`: if the awaited `verifyAuth`
action is fulfilled, its payload is returned to the view; every other
outcome falls through to `redirect("/login")`. -/
def createProtectedLoader : VerifyResult → LoaderResult
  | .fulfilled payload => .page payload
  | .rejected _ => .redirectTo "/login"

/-- A full failed dispatch of an auth thunk: the pending phase followed by
the rejected phase. -/
def authFailedDispatch (op : AuthOp) (msg : String) (s : AuthState) : AuthState :=
  authRejected op msg (authPending op s)

/-- A full failed dispatch of a url thunk: the pending phase followed by
the rejected phase. -/
def urlFailedDispatch (op : UrlOp) (msg : String) (s : UrlState) : UrlState :=
  urlRejected op msg (urlPending op s)

/-- Sample identity used for concrete evaluations. -/
def idA : Identity := { fullName := "A", emailId := "a@b.com", id := 1 }

/-- Sample URL record used for concrete evaluations. -/
def rec1 : UrlRecord :=
  { id := "1", longUrl := "https://example.com/a", shortUrl := "https://sho.rt/a" }

/-- Second sample URL record used for concrete evaluations. -/
def rec2 : UrlRecord :=
  { id := "2", longUrl := "https://example.com/b", shortUrl := "https://sho.rt/b" }

/-- Sample url-store state holding two records. -/
def sampleUrlState : UrlState :=
  { urls := [rec1, rec2], isLoading := false, error := none, successMessage := none }

/-- Lengths after filtering out the records matching an id: the removed
part is exactly the records counted by the matching predicate. -/
theorem filter_ne_id_length (d : String) (l : List UrlRecord) :
    (l.filter (fun u => u.id ≠ d)).length + l.countP (fun r => r.id = d) = l.length := by
  induction l with
  | nil => rfl
  | cons a l ih =>
    by_cases h : a.id = d <;>
      simp [List.filter_cons, List.countP_cons, h, List.length_cons] at ih ⊢ <;>
      omega

/-- Claim C1 (code bug): the request the `shortenUrl` thunk sends for a
concrete input `longUrl = "https://example.com/my-long-page"` is identical
to the request sent for any other input — the body holds only the
hard-coded `base_url` and `expires_at`, and in particular the input never
appears in it, contradicting the documented contract
`shortenUrl(longUrl) — create a shortened URL from longUrl`. -/
theorem shortenUrl_request_ignores_longUrl :
    shortenUrlRequest "https://example.com/my-long-page" = shortenUrlRequest "" ∧
    (shortenUrlRequest "https://example.com/my-long-page").base_url ≠
      "https://example.com/my-long-page" ∧
    (shortenUrlRequest "https://example.com/my-long-page").path = "/urls/create" :=
  ⟨rfl, by decide, rfl⟩

/-- Claim C2 (counterexample): the requested phase of `endSession`
(`logout`) does not set `isPending` to true — no `logout.pending` case is
registered, so from the initial state `isLoading` stays `false`. -/
theorem endSession_pending_no_isLoading :
    (authPending AuthOp.logout initialAuthState).isLoading ≠ true := by decide

/-- Claim C2 (amended): the requested phase of `authenticate`, `register`,
`listResources`, `createResource` and `deleteResource` sets `isPending`
to true and clears `error`; `verifySession`'s requested phase sets
`isPending` to true but leaves `error` unchanged; `endSession` has no
requested-phase transition, so the store is unchanged. -/
theorem pending_sets_isLoading_clears_error (s : AuthState) (t : UrlState) :
    (authPending AuthOp.login s).isLoading = true ∧
    (authPending AuthOp.login s).error = none ∧
    (authPending AuthOp.signup s).isLoading = true ∧
    (authPending AuthOp.signup s).error = none ∧
    (authPending AuthOp.verifyAuth s).isLoading = true ∧
    (authPending AuthOp.verifyAuth s).error = s.error ∧
    authPending AuthOp.logout s = s ∧
    (urlPending UrlOp.fetchUserUrls t).isLoading = true ∧
    (urlPending UrlOp.fetchUserUrls t).error = none ∧
    (urlPending UrlOp.shortenUrl t).isLoading = true ∧
    (urlPending UrlOp.shortenUrl t).error = none ∧
    (urlPending UrlOp.deleteUrl t).isLoading = true ∧
    (urlPending UrlOp.deleteUrl t).error = none :=
  ⟨rfl, rfl, rfl, rfl, rfl, rfl, rfl, rfl, rfl, rfl, rfl, rfl, rfl⟩

/-- Claim C3 (counterexample): strictly between the start of an
`endSession` dispatch and its terminal transition, `isPending` is false,
not true — observed in the state reached after a successful login. -/
theorem endSession_midDispatch_isLoading_false :
    (authPending AuthOp.logout
      (authFulfilled AuthOp.login idA
        (authPending AuthOp.login initialAuthState))).isLoading ≠ true := by decide

/-- Claim C3 (amended): for every operation other than `endSession`,
`isPending` is true after the requested phase and set false by either
terminal transition of the same dispatch; the `endSession` transitions
never modify `isPending`, so from a settled state it stays false for that
dispatch, and in all cases `isPending = true` never persists after a
dispatch settles. -/
theorem isLoading_lifecycle (s : AuthState) (t : UrlState) (p : Identity)
    (pl : List UrlRecord) (r : UrlRecord) (d : String) (m : String) :
    (authPending AuthOp.login s).isLoading = true ∧
    (authFulfilled AuthOp.login p (authPending AuthOp.login s)).isLoading = false ∧
    (authRejected AuthOp.login m (authPending AuthOp.login s)).isLoading = false ∧
    (authPending AuthOp.signup s).isLoading = true ∧
    (authFulfilled AuthOp.signup p (authPending AuthOp.signup s)).isLoading = false ∧
    (authRejected AuthOp.signup m (authPending AuthOp.signup s)).isLoading = false ∧
    (authPending AuthOp.verifyAuth s).isLoading = true ∧
    (authFulfilled AuthOp.verifyAuth p (authPending AuthOp.verifyAuth s)).isLoading = false ∧
    (authRejected AuthOp.verifyAuth m (authPending AuthOp.verifyAuth s)).isLoading = false ∧
    (authPending AuthOp.logout s).isLoading = s.isLoading ∧
    (authFulfilled AuthOp.logout p s).isLoading = s.isLoading ∧
    (authRejected AuthOp.logout m s).isLoading = s.isLoading ∧
    (urlPending UrlOp.fetchUserUrls t).isLoading = true ∧
    (fetchUserUrlsFulfilled pl (urlPending UrlOp.fetchUserUrls t)).isLoading = false ∧
    (urlRejected UrlOp.fetchUserUrls m (urlPending UrlOp.fetchUserUrls t)).isLoading = false ∧
    (urlPending UrlOp.shortenUrl t).isLoading = true ∧
    (shortenUrlFulfilled r (urlPending UrlOp.shortenUrl t)).isLoading = false ∧
    (urlRejected UrlOp.shortenUrl m (urlPending UrlOp.shortenUrl t)).isLoading = false ∧
    (urlPending UrlOp.deleteUrl t).isLoading = true ∧
    (deleteUrlFulfilled d (urlPending UrlOp.deleteUrl t)).isLoading = false ∧
    (urlRejected UrlOp.deleteUrl m (urlPending UrlOp.deleteUrl t)).isLoading = false :=
  ⟨rfl, rfl, rfl, rfl, rfl, rfl, rfl, rfl, rfl, rfl, rfl,
   rfl, rfl, rfl, rfl, rfl, rfl, rfl, rfl, rfl, rfl⟩

/-- Claim C8: the protected-route loader returns the resolved identity
payload when the dispatched `verifyAuth` action is fulfilled, returns a
redirect to `/login` when it is rejected, and a failed `verifySession`
dispatch never writes an error string into the session store (its
`rejected` handler leaves `error` exactly as it was before the
dispatch). -/
theorem routeGuard_verify_outcomes (u : Identity) (m msg : String) (s : AuthState) :
    createProtectedLoader (VerifyResult.fulfilled u) = LoaderResult.page u ∧
    createProtectedLoader (VerifyResult.rejected m) = LoaderResult.redirectTo "/login" ∧
    (authRejected AuthOp.verifyAuth msg
      (authPending AuthOp.verifyAuth s)).error = s.error :=
  ⟨rfl, rfl, rfl⟩

/-- Claim C10: in both stores, `clearError` and `clearSuccessMessage` are
idempotent, commute with each other, and each changes only its own field,
leaving the other message field and every remaining field of the store
unchanged. -/
theorem clear_reducers_idempotent_commute_frame (s : AuthState) (t : UrlState) :
    authClearError (authClearError s) = authClearError s ∧
    authClearSuccessMessage (authClearSuccessMessage s) = authClearSuccessMessage s ∧
    authClearError (authClearSuccessMessage s) = authClearSuccessMessage (authClearError s) ∧
    (authClearError s).error = none ∧
    (authClearError s).successMessage = s.successMessage ∧
    (authClearError s).user = s.user ∧
    (authClearError s).isAuthenticated = s.isAuthenticated ∧
    (authClearError s).isLoading = s.isLoading ∧
    (authClearSuccessMessage s).successMessage = none ∧
    (authClearSuccessMessage s).error = s.error ∧
    (authClearSuccessMessage s).user = s.user ∧
    (authClearSuccessMessage s).isAuthenticated = s.isAuthenticated ∧
    (authClearSuccessMessage s).isLoading = s.isLoading ∧
    urlClearError (urlClearError t) = urlClearError t ∧
    urlClearSuccessMessage (urlClearSuccessMessage t) = urlClearSuccessMessage t ∧
    urlClearError (urlClearSuccessMessage t) = urlClearSuccessMessage (urlClearError t) ∧
    (urlClearError t).error = none ∧
    (urlClearError t).successMessage = t.successMessage ∧
    (urlClearError t).urls = t.urls ∧
    (urlClearError t).isLoading = t.isLoading ∧
    (urlClearSuccessMessage t).successMessage = none ∧
    (urlClearSuccessMessage t).error = t.error ∧
    (urlClearSuccessMessage t).urls = t.urls ∧
    (urlClearSuccessMessage t).isLoading = t.isLoading :=
  ⟨rfl, rfl, rfl, rfl, rfl, rfl, rfl, rfl, rfl, rfl, rfl, rfl,
   rfl, rfl, rfl, rfl, rfl, rfl, rfl, rfl, rfl, rfl, rfl, rfl⟩

/-- Claim C5: in every session state reachable from the initial state by
the lifecycle transitions of the four auth thunks, `isAuthenticated =
true` implies the stored identity is not absent. -/
theorem auth_isAuthenticated_implies_identity (s : AuthState)
    (h : AuthReachable s) : s.isAuthenticated = true → s.user ≠ none := by
  induction h with
  | init => intro hA; simp [initialAuthState] at hA
  | step e t ht ih =>
    cases e with
    | pending op => cases op <;> exact ih
    | fulfilled op p =>
      cases op with
      | login => intro _; simp [authStep, authFulfilled]
      | signup => exact ih
      | verifyAuth => intro _; simp [authStep, authFulfilled]
      | logout => intro hc; simp [authStep, authFulfilled] at hc
    | rejected op m =>
      cases op with
      | login => exact ih
      | signup => exact ih
      | verifyAuth => intro hc; simp [authStep, authRejected] at hc
      | logout => exact ih

/-- Witness for claim C5: the state after a successful login dispatch is
reachable, authenticated, and holds an identity. -/
theorem auth_isAuthenticated_implies_identity_witness :
    (authStep (AuthEvent.fulfilled AuthOp.login idA)
      (authStep (AuthEvent.pending AuthOp.login) initialAuthState)).isAuthenticated = true ∧
    (authStep (AuthEvent.fulfilled AuthOp.login idA)
      (authStep (AuthEvent.pending AuthOp.login) initialAuthState)).user ≠ none :=
  ⟨by decide,
   auth_isAuthenticated_implies_identity _
     (AuthReachable.step _ _ (AuthReachable.step _ _ AuthReachable.init))
     (by decide)⟩

/-- Claim C4 (counterexample): the duplicate-id invariant fails on the
code — two successful `createResource` dispatches whose gateway responses
carry the same record yield a reachable state with two records of id
`"1"`. -/
theorem urls_duplicate_id_reachable :
    UrlReachable (urlStep (UrlEvent.shortenFulfilled rec1)
      (urlStep (UrlEvent.shortenFulfilled rec1) initialUrlState)) ∧
    ¬ ((urlStep (UrlEvent.shortenFulfilled rec1)
        (urlStep (UrlEvent.shortenFulfilled rec1) initialUrlState)).urls.map
          (fun u => u.id)).Nodup :=
  ⟨UrlReachable.step _ _ (UrlReachable.step _ _ UrlReachable.init), by decide⟩

/-- Claim C4 (amended): provided every fetched list has pairwise distinct
ids and every created record's id is not already present, every reachable
url-store state has no two records with the same id; and every successful
`createResource` places the new record at index 0 of `items`. -/
theorem urls_nodup_and_prepend (s : UrlState) (h : UrlReachableFresh s) :
    ((s.urls.map (fun u => u.id)).Nodup) ∧
    ∀ r : UrlRecord, (shortenUrlFulfilled r s).urls.head? = some r := by
  refine ⟨?_, fun r => rfl⟩
  induction h with
  | init => simp [initialUrlState]
  | step e t ht hg ih =>
    cases e with
    | pending op => cases op <;> exact ih
    | fetchFulfilled p => exact hg
    | shortenFulfilled r =>
      simp only [urlStep, shortenUrlFulfilled, List.map_cons, List.nodup_cons]
      exact ⟨hg, ih⟩
    | deleteFulfilled d =>
      exact List.Nodup.sublist (List.Sublist.map _ (List.filter_sublist _)) ih
    | rejected op m => cases op <;> exact ih

/-- Witness for claim C4: the state after one fresh `createResource`
success is reachable under the freshness assumption, its ids are
duplicate-free, and a further create prepends at index 0. -/
theorem urls_nodup_and_prepend_witness :
    ((urlStep (UrlEvent.shortenFulfilled rec1) initialUrlState).urls.map
      (fun u => u.id)).Nodup ∧
    (shortenUrlFulfilled rec2
      (urlStep (UrlEvent.shortenFulfilled rec1) initialUrlState)).urls.head? = some rec2 := by
  have hreach : UrlReachableFresh (urlStep (UrlEvent.shortenFulfilled rec1) initialUrlState) :=
    UrlReachableFresh.step _ _ UrlReachableFresh.init
      (by simp [freshEvent, initialUrlState])
  exact ⟨(urls_nodup_and_prepend _ hreach).1, (urls_nodup_and_prepend _ hreach).2 rec2⟩

/-- Claim C6: for every operation, a failed dispatch starting from a
settled store (`isPending = false`, as in every quiescent state) ends with
`isPending = false` and leaves the prior `items` and the prior
`identity`/`isAuthenticated` unchanged — except `verifySession`, whose
failure clears the identity and sets `isAuthenticated` to false. -/
theorem failed_dispatch_settled (s : AuthState) (t : UrlState) (m : String)
    (h : s.isLoading = false) :
    (authFailedDispatch AuthOp.login m s).isLoading = false ∧
    (authFailedDispatch AuthOp.login m s).user = s.user ∧
    (authFailedDispatch AuthOp.login m s).isAuthenticated = s.isAuthenticated ∧
    (authFailedDispatch AuthOp.signup m s).isLoading = false ∧
    (authFailedDispatch AuthOp.signup m s).user = s.user ∧
    (authFailedDispatch AuthOp.signup m s).isAuthenticated = s.isAuthenticated ∧
    (authFailedDispatch AuthOp.verifyAuth m s).isLoading = false ∧
    (authFailedDispatch AuthOp.verifyAuth m s).user = none ∧
    (authFailedDispatch AuthOp.verifyAuth m s).isAuthenticated = false ∧
    (authFailedDispatch AuthOp.logout m s).isLoading = false ∧
    (authFailedDispatch AuthOp.logout m s).user = s.user ∧
    (authFailedDispatch AuthOp.logout m s).isAuthenticated = s.isAuthenticated ∧
    (urlFailedDispatch UrlOp.fetchUserUrls m t).isLoading = false ∧
    (urlFailedDispatch UrlOp.fetchUserUrls m t).urls = t.urls ∧
    (urlFailedDispatch UrlOp.shortenUrl m t).isLoading = false ∧
    (urlFailedDispatch UrlOp.shortenUrl m t).urls = t.urls ∧
    (urlFailedDispatch UrlOp.deleteUrl m t).isLoading = false ∧
    (urlFailedDispatch UrlOp.deleteUrl m t).urls = t.urls :=
  ⟨rfl, rfl, rfl, rfl, rfl, rfl, rfl, rfl, rfl, h, rfl, rfl,
   rfl, rfl, rfl, rfl, rfl, rfl⟩

/-- Witness for claim C6: concrete instantiation at the initial states of
both stores with message "boom". -/
theorem failed_dispatch_settled_witness :
    initialAuthState.isLoading = false ∧
    (authFailedDispatch AuthOp.login "boom" initialAuthState).isLoading = false ∧
    (authFailedDispatch AuthOp.login "boom" initialAuthState).user = initialAuthState.user ∧
    (authFailedDispatch AuthOp.login "boom" initialAuthState).isAuthenticated = initialAuthState.isAuthenticated ∧
    (authFailedDispatch AuthOp.signup "boom" initialAuthState).isLoading = false ∧
    (authFailedDispatch AuthOp.signup "boom" initialAuthState).user = initialAuthState.user ∧
    (authFailedDispatch AuthOp.signup "boom" initialAuthState).isAuthenticated = initialAuthState.isAuthenticated ∧
    (authFailedDispatch AuthOp.verifyAuth "boom" initialAuthState).isLoading = false ∧
    (authFailedDispatch AuthOp.verifyAuth "boom" initialAuthState).user = none ∧
    (authFailedDispatch AuthOp.verifyAuth "boom" initialAuthState).isAuthenticated = false ∧
    (authFailedDispatch AuthOp.logout "boom" initialAuthState).isLoading = false ∧
    (authFailedDispatch AuthOp.logout "boom" initialAuthState).user = initialAuthState.user ∧
    (authFailedDispatch AuthOp.logout "boom" initialAuthState).isAuthenticated = initialAuthState.isAuthenticated ∧
    (urlFailedDispatch UrlOp.fetchUserUrls "boom" initialUrlState).isLoading = false ∧
    (urlFailedDispatch UrlOp.fetchUserUrls "boom" initialUrlState).urls = initialUrlState.urls ∧
    (urlFailedDispatch UrlOp.shortenUrl "boom" initialUrlState).isLoading = false ∧
    (urlFailedDispatch UrlOp.shortenUrl "boom" initialUrlState).urls = initialUrlState.urls ∧
    (urlFailedDispatch UrlOp.deleteUrl "boom" initialUrlState).isLoading = false ∧
    (urlFailedDispatch UrlOp.deleteUrl "boom" initialUrlState).urls = initialUrlState.urls :=
  ⟨rfl, failed_dispatch_settled initialAuthState initialUrlState "boom" rfl⟩

/-- Claim C7 (counterexample): a successful `deleteResource("2")` from the
initial (empty) collection leaves no record with id "2" but the length
does not decrease by exactly 1 — it is unchanged. -/
theorem deleteUrl_empty_length_unchanged :
    (∀ r ∈ (deleteUrlFulfilled "2" initialUrlState).urls, r.id ≠ "2") ∧
    ¬ ((deleteUrlFulfilled "2" initialUrlState).urls.length + 1 =
        initialUrlState.urls.length) := by decide

/-- Claim C7 (amended): after a successful `deleteResource(d)`, no record
with id `d` remains, and `items.length` decreases by exactly the number of
records whose id was `d` before the dispatch (exactly 1 when exactly one
such record existed). -/
theorem deleteUrl_removes_matching (s : UrlState) (d : String) :
    (∀ r ∈ (deleteUrlFulfilled d s).urls, r.id ≠ d) ∧
    (deleteUrlFulfilled d s).urls.length +
      s.urls.countP (fun r => r.id = d) = s.urls.length := by
  constructor
  · intro r hr
    have hd := List.of_mem_filter hr
    simpa using hd
  · exact filter_ne_id_length d s.urls

/-- Witness for claim C7: in the two-record sample state, deleting id "1"
keeps `rec2` (whose id differs from "1") and the length decreases by the
count of id-"1" records. -/
theorem deleteUrl_removes_matching_witness :
    rec2.id ≠ "1" ∧
    (deleteUrlFulfilled "1" sampleUrlState).urls.length +
      sampleUrlState.urls.countP (fun r => r.id = "1") = sampleUrlState.urls.length :=
  ⟨(deleteUrl_removes_matching sampleUrlState "1").1 rec2 (by decide),
   (deleteUrl_removes_matching sampleUrlState "1").2⟩

/-- Claim C9: when no record with id `d` is present, a successful
`deleteResource(d)` leaves `items` entirely unchanged while still setting
the deleted-success message and `isPending = false` (and leaving `error`
as it was). -/
theorem deleteUrl_absent_id_noop (s : UrlState) (d : String)
    (h : ∀ r ∈ s.urls, r.id ≠ d) :
    (deleteUrlFulfilled d s).urls = s.urls ∧
    (deleteUrlFulfilled d s).successMessage = some "URL deleted successfully!" ∧
    (deleteUrlFulfilled d s).isLoading = false ∧
    (deleteUrlFulfilled d s).error = s.error := by
  refine ⟨?_, rfl, rfl, rfl⟩
  simp only [deleteUrlFulfilled]
  exact List.filter_eq_self.mpr (fun r hr => decide_eq_true (h r hr))

/-- Witness for claim C9: deleting the absent id "9" from the two-record
sample state is a no-op on `items` with the success fields set. -/
theorem deleteUrl_absent_id_noop_witness :
    (deleteUrlFulfilled "9" sampleUrlState).urls = sampleUrlState.urls ∧
    (deleteUrlFulfilled "9" sampleUrlState).successMessage = some "URL deleted successfully!" ∧
    (deleteUrlFulfilled "9" sampleUrlState).isLoading = false ∧
    (deleteUrlFulfilled "9" sampleUrlState).error = sampleUrlState.error :=
  deleteUrl_absent_id_noop sampleUrlState "9" (by decide)
